import Mathlib

/-!
YockEngine sprite simulation: verification of the core.

Shallow embedding of the simulation core of `src/YockEngine.cpp`:
the sprite data model, the axis-aligned rectangle collision predicate
`checkCollision` (lines 29-34), the spawner `spawnSprite` (lines 60-72), and
the per-frame simulation phases of `main` (lines 159-226): kinematic
integration with boundary bounce and lifetime decrement (159-173), the
pairwise collision pass (176-206), and the two expiration passes (209-226).

Modelling conventions:
* C `int` fields are embedded as `ℤ` (no overflow occurs in the quantities
  the claims are about).
* The C++ `float deltaTime` and the expression
  `static_cast<int>(speed * deltaTime * 60)` are embedded with exact rational
  arithmetic (`ℚ`), and the C cast's truncation toward zero is `truncToInt`.
* `SDL_Texture*` handles are opaque; they are embedded as `ℕ` identifiers and
  the texture registry as a `List ℕ`.
* `rand()` is embedded as an oracle stream `r : ℕ → ℕ` of call results,
  consumed in source order (the two operands of `*` in the speed expressions
  are unsequenced in C++; the properties proved below do not depend on which
  call feeds which operand).
* The spawn-gating phase (lines 148-152) only appends a freshly spawned
  sprite; `stepSim` models the phases acting on the current collection
  (integrate/bounce/decrement, collide, expire), i.e. one simulation step on
  the post-spawn collection.
-/

/-- The rectangle `SDL_Rect`: position and size, YockEngine.cpp line 19. -/
structure Rect where
  x : ℤ
  y : ℤ
  w : ℤ
  h : ℤ
deriving DecidableEq

/-- The entity record `struct Sprite`, YockEngine.cpp lines 18-23. -/
structure Sprite where
  rect : Rect
  speedX : ℤ
  speedY : ℤ
  lifetime : ℤ
  texture : ℕ
deriving DecidableEq

/-- The overlap test `checkCollision`, YockEngine.cpp lines 29-34. -/
def checkCollision (a b : Rect) : Bool :=
  a.x < b.x + b.w && a.x + a.w > b.x && a.y < b.y + b.h && a.y + a.h > b.y

/-- C-style truncation toward zero of a rational, the semantics of
`static_cast<int>` on a non-negative-or-negative float value. -/
def truncToInt (q : ℚ) : ℤ := if 0 ≤ q then ⌊q⌋ else -⌊-q⌋

/-- One sprite's integrate / bounce / lifetime-decrement update,
YockEngine.cpp lines 160-172 (the body of the update loop):
`rect.x += (int)(speedX * deltaTime * 60)`, same for y, then the two
boundary checks flip the speed signs, then `lifetime--`. -/
def moveSprite (dt : ℚ) (s : Sprite) : Sprite :=
  let x1 := s.rect.x + truncToInt ((s.speedX : ℚ) * dt * 60)
  let y1 := s.rect.y + truncToInt ((s.speedY : ℚ) * dt * 60)
  { rect := { x := x1, y := y1, w := s.rect.w, h := s.rect.h }
    speedX := if x1 ≤ 0 ∨ x1 + s.rect.w ≥ 800 then -s.speedX else s.speedX
    speedY := if y1 ≤ 0 ∨ y1 + s.rect.h ≥ 600 then -s.speedY else s.speedY
    lifetime := s.lifetime - 1
    texture := s.texture }

/-- The collision response applied to one colliding pair, YockEngine.cpp
lines 179-203: both speeds fully negated, then the 1-unit x separation
(`<` strict, ties take the else branch), then the same on y (the y
comparison in the source runs after the x writes, but the x writes do not
touch the y fields, so the original y coordinates are compared). -/
def resolvePair (a b : Sprite) : Sprite × Sprite :=
  let ax := if a.rect.x < b.rect.x then a.rect.x - 1 else a.rect.x + 1
  let bx := if a.rect.x < b.rect.x then b.rect.x + 1 else b.rect.x - 1
  let ay := if a.rect.y < b.rect.y then a.rect.y - 1 else a.rect.y + 1
  let yb := if a.rect.y < b.rect.y then b.rect.y + 1 else b.rect.y - 1
  ({ rect := { x := ax, y := ay, w := a.rect.w, h := a.rect.h }
     speedX := -a.speedX, speedY := -a.speedY
     lifetime := a.lifetime, texture := a.texture },
   { rect := { x := bx, y := yb, w := b.rect.w, h := b.rect.h }
     speedX := -b.speedX, speedY := -b.speedY
     lifetime := b.lifetime, texture := b.texture })

/-- One iteration of the inner collision loop body, YockEngine.cpp
lines 178-204: if sprites i and j (read from the current, already partially
mutated collection) collide, overwrite both with the resolved pair. -/
def applyPair (i j : ℕ) (l : List Sprite) : List Sprite :=
  match l[i]?, l[j]? with
  | some a, some b =>
      if checkCollision a.rect b.rect then
        let p := resolvePair a b
        (l.set i p.1).set j p.2
      else l
  | _, _ => l

/-- The inner loop `for (j = i + 1; j < sprites.size(); ++j)`,
YockEngine.cpp line 177. The fuel argument counts the remaining
iterations; since `applyPair` preserves the length, running it with fuel
`l.length - j` is exactly the source loop. -/
def innerLoop (i : ℕ) : ℕ → ℕ → List Sprite → List Sprite
  | 0, _, l => l
  | fuel + 1, j, l => if j < l.length then innerLoop i fuel (j + 1) (applyPair i j l) else l

/-- The outer loop `for (i = 0; i < sprites.size(); ++i)`,
YockEngine.cpp line 176, with the same fuel convention. -/
def outerLoop : ℕ → ℕ → List Sprite → List Sprite
  | 0, _, l => l
  | fuel + 1, i, l =>
      if i < l.length then outerLoop fuel (i + 1) (innerLoop i (l.length - (i + 1)) (i + 1) l)
      else l

/-- The whole pairwise collision pass, YockEngine.cpp lines 176-206. -/
def collisionPass (l : List Sprite) : List Sprite := outerLoop l.length 0 l

/-- One erase-while-iterating expiration pass, YockEngine.cpp lines 209-216
(duplicated verbatim at lines 219-226): an element with
`lifetime <= 0` is erased and iteration continues at its successor,
otherwise the iterator advances. -/
def removeExpired : List Sprite → List Sprite
  | [] => []
  | s :: rest => if s.lifetime ≤ 0 then removeExpired rest else s :: removeExpired rest

/-- One simulation step on the current (post-spawn) collection: the update
loop (lines 159-173), the collision pass (lines 176-206), then the two
expiration passes (lines 209-226). -/
def stepSim (dt : ℚ) (l : List Sprite) : List Sprite :=
  removeExpired (removeExpired (collisionPass (l.map (moveSprite dt))))

/-- Successive simulation steps, one per elapsed delta time. -/
def iterateStep : List ℚ → List Sprite → List Sprite
  | [], l => l
  | dt :: dts, l => iterateStep dts (stepSim dt l)

/-- The spawner `spawnSprite`, YockEngine.cpp lines 60-72, with the `rand()` results
supplied by the oracle `r` in call order: position within
`SCREEN_WIDTH - 50` by `SCREEN_HEIGHT - 50`, speeds
`(rand() % 5 + 1) * (rand() % 2 ? 1 : -1)`, lifetime `rand() % 300 + 100`,
texture `textures[rand() % textures.size()]`. -/
def spawnSprite (textures : List ℕ) (r : ℕ → ℕ) : Sprite :=
  { rect := { x := ((r 0 % (800 - 50) : ℕ) : ℤ), y := ((r 1 % (600 - 50) : ℕ) : ℤ)
              w := 50, h := 50 }
    speedX := ((r 2 % 5 + 1 : ℕ) : ℤ) * (if r 3 % 2 = 1 then 1 else -1)
    speedY := ((r 4 % 5 + 1 : ℕ) : ℤ) * (if r 5 % 2 = 1 then 1 else -1)
    lifetime := ((r 6 % 300 + 100 : ℕ) : ℤ)
    texture := textures.getD (r 7 % textures.length) 0 }

/-! ## Helper lemmas -/

lemma truncToInt_coe (v : ℤ) : truncToInt (v : ℚ) = v := by
  rw [truncToInt]
  rcases le_or_lt 0 v with hv | hv
  · rw [if_pos (by exact_mod_cast hv), Int.floor_intCast]
  · rw [if_neg (by simp only [not_le]; exact_mod_cast hv)]
    rw [show (-(v : ℚ)) = ((-v : ℤ) : ℚ) by push_cast; ring, Int.floor_intCast]
    ring

lemma moveSprite_eval (dt : ℚ) (s : Sprite) (dx dy : ℤ)
    (hdx : (s.speedX : ℚ) * dt * 60 = (dx : ℚ)) (hdy : (s.speedY : ℚ) * dt * 60 = (dy : ℚ)) :
    moveSprite dt s =
      { rect := { x := s.rect.x + dx, y := s.rect.y + dy, w := s.rect.w, h := s.rect.h }
        speedX := if s.rect.x + dx ≤ 0 ∨ s.rect.x + dx + s.rect.w ≥ 800
                  then -s.speedX else s.speedX
        speedY := if s.rect.y + dy ≤ 0 ∨ s.rect.y + dy + s.rect.h ≥ 600
                  then -s.speedY else s.speedY
        lifetime := s.lifetime - 1
        texture := s.texture } := by
  simp only [moveSprite, hdx, hdy, truncToInt_coe]

lemma moveSprite_sixtieth (s : Sprite) :
    moveSprite (1 / 60) s =
      { rect := { x := s.rect.x + s.speedX, y := s.rect.y + s.speedY
                  w := s.rect.w, h := s.rect.h }
        speedX := if s.rect.x + s.speedX ≤ 0 ∨ s.rect.x + s.speedX + s.rect.w ≥ 800
                  then -s.speedX else s.speedX
        speedY := if s.rect.y + s.speedY ≤ 0 ∨ s.rect.y + s.speedY + s.rect.h ≥ 600
                  then -s.speedY else s.speedY
        lifetime := s.lifetime - 1
        texture := s.texture } :=
  moveSprite_eval (1 / 60) s s.speedX s.speedY (by ring) (by ring)

lemma removeExpired_eq_filter (l : List Sprite) :
    removeExpired l = l.filter (fun s => decide (0 < s.lifetime)) := by
  induction l with
  | nil => rfl
  | cons s rest ih =>
      rw [removeExpired, List.filter_cons]
      rcases le_or_lt s.lifetime 0 with h | h
      · rw [if_pos h, if_neg (by simp; omega), ih]
      · rw [if_neg (by omega), if_pos (by simp [h]), ih]

lemma removeExpired_twice (l : List Sprite) :
    removeExpired (removeExpired l) = removeExpired l := by
  rw [removeExpired_eq_filter, removeExpired_eq_filter, List.filter_filter]
  congr 1
  funext a
  rw [Bool.and_self]

lemma filter_map_comm {α β : Type} (f : α → β) (p : β → Bool) (l : List α) :
    (l.map f).filter p = (l.filter (fun a => p (f a))).map f := by
  induction l with
  | nil => rfl
  | cons a t ih =>
      simp only [List.map_cons, List.filter_cons]
      cases h : p (f a) <;> simp [h, ih]

lemma set_getElem?_self {α : Type} (xs : List α) (i : ℕ) (x : α)
    (h : xs[i]? = some x) : xs.set i x = xs := by
  induction xs generalizing i with
  | nil => simp at h
  | cons a t ih =>
      cases i with
      | zero => simp_all
      | succ n =>
          simp only [List.getElem?_cons_succ] at h
          simp [List.set_cons_succ, ih n h]

/-! ## Claim theorems -/

/-- Claim C7: `checkCollision` returns true exactly when the open interiors
overlap on both axes, and rectangles that merely share an edge do not
collide while an overlap of 1 unit does. -/
theorem checkCollision_iff_open_overlap :
    (∀ a b : Rect, checkCollision a b = true ↔
      (a.x < b.x + b.w ∧ a.x + a.w > b.x ∧ a.y < b.y + b.h ∧ a.y + a.h > b.y))
    ∧ checkCollision ⟨0, 0, 10, 10⟩ ⟨10, 0, 10, 10⟩ = false
    ∧ checkCollision ⟨0, 0, 10, 10⟩ ⟨9, 0, 10, 10⟩ = true := by
  refine ⟨fun a b => ?_, by decide, by decide⟩
  simp [checkCollision, and_assoc]

/-- Claim C9: the collision predicate is symmetric. -/
theorem checkCollision_symmetric :
    ∀ a b : Rect, checkCollision a b = checkCollision b a := by
  intro a b
  rw [Bool.eq_iff_iff]
  simp only [checkCollision, Bool.and_eq_true, decide_eq_true_eq]
  tauto

/-- Claim C2: after the expiration phase (the two erase-while-iterating
passes of lines 209-226) the collection is exactly the pre-expiration
sprites with positive remaining lifetime: every sprite with
`lifetime <= 0` is gone and each survivor appears exactly once, which the
filter equality expresses. -/
theorem expiration_removes_exactly_nonpositive :
    ∀ l : List Sprite,
      removeExpired l = l.filter (fun s => decide (0 < s.lifetime)) ∧
      removeExpired (removeExpired l) = l.filter (fun s => decide (0 < s.lifetime)) := by
  intro l
  exact ⟨removeExpired_eq_filter l, by rw [removeExpired_twice]; exact removeExpired_eq_filter l⟩

/-- Claim C10: the duplicated expiration pass is redundant: running the
remove-expired pass twice gives exactly the result of running it once. -/
theorem double_expiration_redundant :
    ∀ l : List Sprite, removeExpired (removeExpired l) = removeExpired l :=
  removeExpired_twice

lemma collisionPass_singleton (t : Sprite) : collisionPass [t] = [t] := rfl

lemma removeExpired_singleton (t : Sprite) (h : 0 < t.lifetime) :
    removeExpired [t] = [t] := by
  rw [removeExpired, if_neg (by omega), removeExpired]

lemma stepSim_singleton (dt : ℚ) (s : Sprite) (h : 0 < (moveSprite dt s).lifetime) :
    stepSim dt [s] = [moveSprite dt s] := by
  rw [stepSim, List.map_cons, List.map_nil, collisionPass_singleton,
    removeExpired_singleton _ h, removeExpired_singleton _ h]

/-- Claim C4: after integration the position is exactly the integrated one
(no clamping), each axis's boundary test is independent and flips that
axis's speed exactly when the post-integration edge is at or beyond the
bound; and the concrete scenario: the sprite at x=795, w=50, vx=3, vy=0,
lifetime 5 stepped with deltaTime = 1/60 ends with vx = -3 and lifetime 4. -/
theorem boundary_bounce_flips_velocity :
    (∀ (dt : ℚ) (s : Sprite),
      (moveSprite dt s).rect.x = s.rect.x + truncToInt ((s.speedX : ℚ) * dt * 60) ∧
      (moveSprite dt s).rect.y = s.rect.y + truncToInt ((s.speedY : ℚ) * dt * 60) ∧
      (moveSprite dt s).speedX =
        (if (moveSprite dt s).rect.x ≤ 0 ∨ (moveSprite dt s).rect.x + s.rect.w ≥ 800
         then -s.speedX else s.speedX) ∧
      (moveSprite dt s).speedY =
        (if (moveSprite dt s).rect.y ≤ 0 ∨ (moveSprite dt s).rect.y + s.rect.h ≥ 600
         then -s.speedY else s.speedY))
    ∧ stepSim (1 / 60) [⟨⟨795, 300, 50, 50⟩, 3, 0, 5, 0⟩]
        = [⟨⟨798, 300, 50, 50⟩, -3, 0, 4, 0⟩] := by
  constructor
  · exact fun dt s => ⟨rfl, rfl, rfl, rfl⟩
  · rw [stepSim_singleton _ _ (by show (0 : ℤ) < 5 - 1; omega), moveSprite_sixtieth]
    decide

/-- Claim C5 counterexample: the sprite at x=749, w=50, vx=3, vy=0 starts
strictly inside the 800-wide screen; the step with deltaTime = 1/60 moves it
to x=752, triggering the right-boundary flip to vx = -3; but the next step,
with deltaTime = 300 (a long stall between frames), carries it far past the
left boundary, where the boundary test flips again, ending the step with
vx = 3 > 0 — not negative as the claim requires. -/
theorem next_step_velocity_not_negative_cex :
    stepSim (1 / 60) [⟨⟨749, 300, 50, 50⟩, 3, 0, 100, 0⟩]
        = [⟨⟨752, 300, 50, 50⟩, -3, 0, 99, 0⟩]
    ∧ stepSim 300 (stepSim (1 / 60) [⟨⟨749, 300, 50, 50⟩, 3, 0, 100, 0⟩])
        = [⟨⟨-53248, 300, 50, 50⟩, 3, 0, 98, 0⟩] := by
  have h1 : stepSim (1 / 60) [(⟨⟨749, 300, 50, 50⟩, 3, 0, 100, 0⟩ : Sprite)]
      = [⟨⟨752, 300, 50, 50⟩, -3, 0, 99, 0⟩] := by
    rw [stepSim_singleton _ _ (by show (0 : ℤ) < 100 - 1; omega), moveSprite_sixtieth]
    decide
  refine ⟨h1, ?_⟩
  rw [h1, stepSim_singleton _ _ ?hl, moveSprite_eval 300 _ (-54000) 0 ?hx ?hy]
  · decide
  case hx => show (((-3 : ℤ) : ℚ) * 300 * 60) = ((-54000 : ℤ) : ℚ); norm_num
  case hy => show (((0 : ℤ) : ℚ) * 300 * 60) = ((0 : ℤ) : ℚ); norm_num
  case hl => show (0 : ℤ) < 99 - 1; omega

/-- Claim C5, amended: with the nominal deltaTime of 1/60 on both the
flip-triggering step and the following step, a sprite that starts strictly
inside the horizontal bounds with velocity (+v, 0), v > 0, and whose step
reaches or passes the right boundary (so its x-velocity flips), has
negative x-velocity at the end of the very next step. (The unamended claim
fails when the next step's displacement carries the sprite to or past
another boundary, as the counterexample shows.) -/
theorem next_step_velocity_negative_nominal
    (s : Sprite) (v : ℤ)
    (hv : s.speedX = v) (_hvy : s.speedY = 0) (hvpos : 0 < v)
    (hx : 0 < s.rect.x) (hin : s.rect.x + s.rect.w < 800)
    (hlife : 3 ≤ s.lifetime)
    (hflip : 800 ≤ s.rect.x + v + s.rect.w) :
    ∀ t ∈ stepSim (1 / 60) (stepSim (1 / 60) [s]), t.speedX < 0 := by
  intro t ht
  rw [stepSim_singleton _ _ (by show (0 : ℤ) < s.lifetime - 1; omega),
    stepSim_singleton _ _ (by show (0 : ℤ) < s.lifetime - 1 - 1; omega)] at ht
  simp only [List.mem_singleton] at ht
  subst ht
  subst hv
  simp only [moveSprite_sixtieth]
  split_ifs <;> omega

/-- Claim C5 witness: the amended theorem applied to the concrete sprite at
x=700, w=50, vx=60, lifetime=10, for which the first nominal step reaches the
right boundary. -/
theorem next_step_velocity_negative_nominal_witness :
    ((⟨⟨700, 300, 50, 50⟩, 60, 0, 10, 0⟩ : Sprite).speedX = 60 ∧ (0 : ℤ) < 60 ∧
      (0 : ℤ) < 700 ∧ (700 : ℤ) + 50 < 800 ∧ (3 : ℤ) ≤ 10 ∧ (800 : ℤ) ≤ 700 + 60 + 50) ∧
    ∀ t ∈ stepSim (1 / 60) (stepSim (1 / 60) [(⟨⟨700, 300, 50, 50⟩, 60, 0, 10, 0⟩ : Sprite)]),
      t.speedX < 0 :=
  ⟨by decide,
   next_step_velocity_negative_nominal ⟨⟨700, 300, 50, 50⟩, 60, 0, 10, 0⟩ 60
     (by decide) (by decide) (by decide) (by decide) (by decide) (by decide) (by decide)⟩

/-- Claim C6: for a non-empty registry, the spawned sprite's 50-by-50
rectangle fits within the 800-by-600 screen, both speed components have
magnitude between 1 and 5 (in particular nonzero), the lifetime lies in
100..400 frames (the source draws from 100..399), and the texture handle is
an entry of the registry. -/
theorem spawnSprite_within_bounds_and_ranges
    (textures : List ℕ) (r : ℕ → ℕ) (hne : textures ≠ []) :
    0 ≤ (spawnSprite textures r).rect.x ∧
    (spawnSprite textures r).rect.x + 50 ≤ 800 ∧
    0 ≤ (spawnSprite textures r).rect.y ∧
    (spawnSprite textures r).rect.y + 50 ≤ 600 ∧
    (spawnSprite textures r).rect.w = 50 ∧ (spawnSprite textures r).rect.h = 50 ∧
    1 ≤ (spawnSprite textures r).speedX.natAbs ∧ (spawnSprite textures r).speedX.natAbs ≤ 5 ∧
    (spawnSprite textures r).speedX ≠ 0 ∧
    1 ≤ (spawnSprite textures r).speedY.natAbs ∧ (spawnSprite textures r).speedY.natAbs ≤ 5 ∧
    (spawnSprite textures r).speedY ≠ 0 ∧
    100 ≤ (spawnSprite textures r).lifetime ∧ (spawnSprite textures r).lifetime ≤ 400 ∧
    (spawnSprite textures r).texture ∈ textures := by
  have hx := Nat.mod_lt (r 0) (show 0 < 800 - 50 by norm_num)
  have hy := Nat.mod_lt (r 1) (show 0 < 600 - 50 by norm_num)
  have hsx := Nat.mod_lt (r 2) (show 0 < 5 by norm_num)
  have hsy := Nat.mod_lt (r 4) (show 0 < 5 by norm_num)
  have hlf := Nat.mod_lt (r 6) (show 0 < 300 by norm_num)
  have hlen : 0 < textures.length := List.length_pos.mpr hne
  have hidx : r 7 % textures.length < textures.length := Nat.mod_lt _ hlen
  refine ⟨by simp only [spawnSprite]; omega, by simp only [spawnSprite]; omega,
    by simp only [spawnSprite]; omega, by simp only [spawnSprite]; omega, rfl, rfl,
    ?_, ?_, ?_, ?_, ?_, ?_,
    by simp only [spawnSprite]; omega, by simp only [spawnSprite]; omega, ?_⟩
  · by_cases h3 : r 3 % 2 = 1 <;> simp [spawnSprite, h3, Int.natAbs_mul] <;> omega
  · by_cases h3 : r 3 % 2 = 1 <;> simp [spawnSprite, h3, Int.natAbs_mul] <;> omega
  · by_cases h3 : r 3 % 2 = 1 <;> simp [spawnSprite, h3] <;> omega
  · by_cases h5 : r 5 % 2 = 1 <;> simp [spawnSprite, h5, Int.natAbs_mul] <;> omega
  · by_cases h5 : r 5 % 2 = 1 <;> simp [spawnSprite, h5, Int.natAbs_mul] <;> omega
  · by_cases h5 : r 5 % 2 = 1 <;> simp [spawnSprite, h5] <;> omega
  · show textures.getD (r 7 % textures.length) 0 ∈ textures
    rw [List.getD_eq_getElem?_getD, List.getElem?_eq_getElem hidx, Option.getD_some]
    exact List.getElem_mem hidx

/-- Claim C6 witness: the spawner applied to the one-entry registry [3] and
the all-zero random oracle. -/
theorem spawnSprite_within_bounds_and_ranges_witness :
    (([3] : List ℕ) ≠ []) ∧
    (0 ≤ (spawnSprite [3] (fun _ => 0)).rect.x ∧
      (spawnSprite [3] (fun _ => 0)).rect.x + 50 ≤ 800 ∧
      0 ≤ (spawnSprite [3] (fun _ => 0)).rect.y ∧
      (spawnSprite [3] (fun _ => 0)).rect.y + 50 ≤ 600 ∧
      (spawnSprite [3] (fun _ => 0)).rect.w = 50 ∧
      (spawnSprite [3] (fun _ => 0)).rect.h = 50 ∧
      1 ≤ (spawnSprite [3] (fun _ => 0)).speedX.natAbs ∧
      (spawnSprite [3] (fun _ => 0)).speedX.natAbs ≤ 5 ∧
      (spawnSprite [3] (fun _ => 0)).speedX ≠ 0 ∧
      1 ≤ (spawnSprite [3] (fun _ => 0)).speedY.natAbs ∧
      (spawnSprite [3] (fun _ => 0)).speedY.natAbs ≤ 5 ∧
      (spawnSprite [3] (fun _ => 0)).speedY ≠ 0 ∧
      100 ≤ (spawnSprite [3] (fun _ => 0)).lifetime ∧
      (spawnSprite [3] (fun _ => 0)).lifetime ≤ 400 ∧
      (spawnSprite [3] (fun _ => 0)).texture ∈ ([3] : List ℕ)) :=
  ⟨by decide, spawnSprite_within_bounds_and_ranges [3] (fun _ => 0) (by decide)⟩

/-- Claim C3: when the collision pass visits a pair (i, j), i different from
j, whose rectangles collide at that moment, both sprites' speeds are negated
on both axes and the 1-unit separation is applied: on each axis the sprite
with strictly smaller coordinate moves by -1 and the other by +1, and on a
tie the else branch moves the first sprite by +1 and the second by -1. -/
theorem collision_response_negates_and_separates
    (l : List Sprite) (i j : ℕ) (a b : Sprite)
    (hij : i ≠ j) (ha : l[i]? = some a) (hb : l[j]? = some b)
    (hcol : checkCollision a.rect b.rect = true) :
    ((applyPair i j l)[i]?).map Sprite.speedX = some (-a.speedX) ∧
    ((applyPair i j l)[i]?).map Sprite.speedY = some (-a.speedY) ∧
    ((applyPair i j l)[j]?).map Sprite.speedX = some (-b.speedX) ∧
    ((applyPair i j l)[j]?).map Sprite.speedY = some (-b.speedY) ∧
    ((applyPair i j l)[i]?).map (fun s => s.rect.x)
      = some (if a.rect.x < b.rect.x then a.rect.x - 1 else a.rect.x + 1) ∧
    ((applyPair i j l)[j]?).map (fun s => s.rect.x)
      = some (if a.rect.x < b.rect.x then b.rect.x + 1 else b.rect.x - 1) ∧
    ((applyPair i j l)[i]?).map (fun s => s.rect.y)
      = some (if a.rect.y < b.rect.y then a.rect.y - 1 else a.rect.y + 1) ∧
    ((applyPair i j l)[j]?).map (fun s => s.rect.y)
      = some (if a.rect.y < b.rect.y then b.rect.y + 1 else b.rect.y - 1) := by
  have hstep : applyPair i j l = (l.set i (resolvePair a b).1).set j (resolvePair a b).2 := by
    rw [applyPair, ha, hb]
    simp [hcol]
  have hi : (applyPair i j l)[i]? = some (resolvePair a b).1 := by
    rw [hstep, List.getElem?_set_ne (Ne.symm hij), List.getElem?_set_self', ha]
    rfl
  have hj : (applyPair i j l)[j]? = some (resolvePair a b).2 := by
    rw [hstep, List.getElem?_set_self', List.getElem?_set_ne hij, hb]
    rfl
  rw [hi, hj]
  refine ⟨rfl, rfl, rfl, rfl, rfl, rfl, rfl, rfl⟩

/-- Claim C3 witness: the pair (0, 1) of the two-sprite collection below,
whose rectangles overlap, resolved by the collision pass body. -/
theorem collision_response_negates_and_separates_witness :
    ((0 : ℕ) ≠ 1 ∧
      ([(⟨⟨0, 0, 10, 10⟩, 2, 3, 50, 0⟩ : Sprite), ⟨⟨5, 5, 10, 10⟩, -1, -1, 60, 1⟩])[0]?
        = some ⟨⟨0, 0, 10, 10⟩, 2, 3, 50, 0⟩ ∧
      ([(⟨⟨0, 0, 10, 10⟩, 2, 3, 50, 0⟩ : Sprite), ⟨⟨5, 5, 10, 10⟩, -1, -1, 60, 1⟩])[1]?
        = some ⟨⟨5, 5, 10, 10⟩, -1, -1, 60, 1⟩ ∧
      checkCollision ⟨0, 0, 10, 10⟩ ⟨5, 5, 10, 10⟩ = true) ∧
    ((applyPair 0 1 [(⟨⟨0, 0, 10, 10⟩, 2, 3, 50, 0⟩ : Sprite), ⟨⟨5, 5, 10, 10⟩, -1, -1, 60, 1⟩])[0]?).map
        Sprite.speedX = some (-(2 : ℤ)) := by
  refine ⟨by decide, ?_⟩
  exact (collision_response_negates_and_separates
    [⟨⟨0, 0, 10, 10⟩, 2, 3, 50, 0⟩, ⟨⟨5, 5, 10, 10⟩, -1, -1, 60, 1⟩] 0 1
    ⟨⟨0, 0, 10, 10⟩, 2, 3, 50, 0⟩ ⟨⟨5, 5, 10, 10⟩, -1, -1, 60, 1⟩
    (by decide) (by decide) (by decide) (by decide)).1

lemma getElem?_map_lifetime (l : List Sprite) (n : ℕ) (u : Sprite) (h : l[n]? = some u) :
    (l.map Sprite.lifetime)[n]? = some u.lifetime := by
  rw [List.getElem?_map, h]
  rfl

lemma map_lifetime_set (l : List Sprite) (n : ℕ) (t : Sprite)
    (h : ∃ u, l[n]? = some u ∧ u.lifetime = t.lifetime) :
    (l.set n t).map Sprite.lifetime = l.map Sprite.lifetime := by
  rcases h with ⟨u, hu, he⟩
  rw [List.map_set]
  apply set_getElem?_self
  rw [getElem?_map_lifetime l n u hu, he]

lemma applyPair_map_lifetime (i j : ℕ) (l : List Sprite) :
    (applyPair i j l).map Sprite.lifetime = l.map Sprite.lifetime := by
  rw [applyPair]
  split
  case _ a b ha hb =>
      split
      case isTrue hc =>
          have h2 : ((l.set i (resolvePair a b).1).set j (resolvePair a b).2).map Sprite.lifetime
              = (l.set i (resolvePair a b).1).map Sprite.lifetime := by
            apply map_lifetime_set
            rcases eq_or_ne i j with rfl | hij
            · refine ⟨(resolvePair a b).1, ?_, ?_⟩
              · rw [List.getElem?_set_self']
                rw [ha]
                rfl
              · have hab : a = b := by rw [ha] at hb; exact Option.some.inj hb
                subst hab
                rfl
            · exact ⟨b, by rw [List.getElem?_set_ne hij, hb], rfl⟩
          rw [h2]
          apply map_lifetime_set
          exact ⟨a, ha, rfl⟩
      case isFalse hc => rfl
  case _ => rfl

lemma innerLoop_map_lifetime (i fuel : ℕ) : ∀ (j : ℕ) (l : List Sprite),
    (innerLoop i fuel j l).map Sprite.lifetime = l.map Sprite.lifetime := by
  induction fuel with
  | zero => intro j l; rfl
  | succ n ih =>
      intro j l
      simp only [innerLoop]
      split
      · rw [ih (j + 1) (applyPair i j l), applyPair_map_lifetime]
      · rfl

lemma outerLoop_map_lifetime (fuel : ℕ) : ∀ (i : ℕ) (l : List Sprite),
    (outerLoop fuel i l).map Sprite.lifetime = l.map Sprite.lifetime := by
  induction fuel with
  | zero => intro i l; rfl
  | succ n ih =>
      intro i l
      simp only [outerLoop]
      split
      · rw [ih (i + 1) _, innerLoop_map_lifetime]
      · rfl

lemma collisionPass_map_lifetime (l : List Sprite) :
    (collisionPass l).map Sprite.lifetime = l.map Sprite.lifetime :=
  outerLoop_map_lifetime l.length 0 l

lemma map_lifetime_filter (X : List Sprite) :
    (X.filter (fun s => decide (0 < s.lifetime))).map Sprite.lifetime
      = (X.map Sprite.lifetime).filter (fun L => decide (0 < L)) :=
  (filter_map_comm Sprite.lifetime (fun L => decide (0 < L)) X).symm

lemma step_lifetimes (dt : ℚ) (l : List Sprite) :
    (stepSim dt l).map Sprite.lifetime
      = (l.map (fun s => s.lifetime - 1)).filter (fun L => decide (0 < L)) := by
  rw [stepSim, removeExpired_twice, removeExpired_eq_filter, map_lifetime_filter,
    collisionPass_map_lifetime, List.map_map]
  rfl

lemma pos_after_step (dt : ℚ) (l : List Sprite) :
    ∀ s ∈ stepSim dt l, 0 < s.lifetime := by
  intro s hs
  have hmem : s.lifetime ∈ (stepSim dt l).map Sprite.lifetime := List.mem_map_of_mem _ hs
  rw [step_lifetimes] at hmem
  simpa using (List.mem_filter.mp hmem).2

lemma filter_shift (k : ℕ) (Ls : List ℤ) :
    (((Ls.map (fun L => L - 1)).filter (fun L => decide (0 < L))).filter
        (fun L => decide ((k : ℤ) < L))).map (fun L => L - (k : ℤ))
      = (Ls.filter (fun L => decide ((k : ℤ) + 1 < L))).map (fun L => L - ((k : ℤ) + 1)) := by
  rw [List.filter_filter, filter_map_comm, List.map_map]
  have h1 : (fun a : ℤ => (decide ((k : ℤ) < a - 1) && decide (0 < a - 1)))
      = (fun a : ℤ => decide ((k : ℤ) + 1 < a)) := by
    funext a
    rcases lt_or_ge ((k : ℤ) + 1) a with h | h
    · rw [decide_eq_true (show (k : ℤ) < a - 1 by omega),
        decide_eq_true (show (0 : ℤ) < a - 1 by omega), decide_eq_true h]
      rfl
    · rw [decide_eq_false (show ¬ (k : ℤ) < a - 1 by omega),
        decide_eq_false (show ¬ (k : ℤ) + 1 < a by omega)]
      rfl
  rw [h1]
  congr 1
  funext a
  simp only [Function.comp_apply]
  ring

lemma map_lifetime_sub (l : List Sprite) :
    l.map (fun s => s.lifetime - 1) = (l.map Sprite.lifetime).map (fun L => L - 1) := by
  rw [List.map_map]
  rfl

lemma iterateStep_lifetimes : ∀ (dts : List ℚ) (l : List Sprite),
    (∀ s ∈ l, 0 < s.lifetime) →
    (iterateStep dts l).map Sprite.lifetime
      = ((l.map Sprite.lifetime).filter (fun L => decide ((dts.length : ℤ) < L))).map
          (fun L => L - (dts.length : ℤ)) := by
  intro dts
  induction dts with
  | nil =>
      intro l h
      simp only [iterateStep, List.length_nil, Nat.cast_zero, sub_zero]
      rw [List.filter_eq_self.mpr ?_, List.map_id']
      intro L hL
      rcases List.mem_map.mp hL with ⟨s, hs, rfl⟩
      simpa using h s hs
  | cons dt rest ih =>
      intro l h
      simp only [iterateStep, List.length_cons, Nat.cast_add, Nat.cast_one]
      rw [ih (stepSim dt l) (pos_after_step dt l), step_lifetimes, map_lifetime_sub,
        filter_shift]

/-- Claim C1: the update loop of a step (integration, bounce, decrement,
then the collision pass, which leaves lifetimes untouched) decreases every
sprite's remaining lifetime by exactly 1 — once per step, never twice; and
across k successive steps, every sprite whose initial lifetime exceeds k is
still present with remaining lifetime equal to its initial value minus k
(a sprite whose initial lifetime equals k reaches 0 at step k and is removed
by that step's expiration phase). -/
theorem lifetime_decreases_once_per_step :
    (∀ (dt : ℚ) (l : List Sprite),
      (collisionPass (l.map (moveSprite dt))).map Sprite.lifetime
        = l.map (fun s => s.lifetime - 1))
    ∧ ∀ (dts : List ℚ) (l : List Sprite), (∀ s ∈ l, 0 < s.lifetime) →
      (iterateStep dts l).map Sprite.lifetime
        = ((l.map Sprite.lifetime).filter (fun L => decide ((dts.length : ℤ) < L))).map
            (fun L => L - (dts.length : ℤ)) :=
  ⟨fun dt l => by rw [collisionPass_map_lifetime, List.map_map]; rfl,
   iterateStep_lifetimes⟩

/-- Claim C1 witness: a sprite of lifetime 5 across two steps of deltaTime 0
retains lifetime 3 = 5 - 2. -/
theorem lifetime_decreases_once_per_step_witness :
    (∀ s ∈ ([⟨⟨1, 1, 50, 50⟩, 1, 1, 5, 0⟩] : List Sprite), 0 < s.lifetime) ∧
    (iterateStep [0, 0] [⟨⟨1, 1, 50, 50⟩, 1, 1, 5, 0⟩]).map Sprite.lifetime
      = ((([(⟨⟨1, 1, 50, 50⟩, 1, 1, 5, 0⟩ : Sprite)]).map Sprite.lifetime).filter
          (fun L => decide (((([0, 0] : List ℚ)).length : ℤ) < L))).map
          (fun L => L - ((([0, 0] : List ℚ)).length : ℤ)) :=
  ⟨by decide, lifetime_decreases_once_per_step.2 [0, 0] _ (by decide)⟩

lemma moveSprite_speedX_cases (dt : ℚ) (s : Sprite) :
    (moveSprite dt s).speedX = s.speedX ∨ (moveSprite dt s).speedX = -s.speedX := by
  simp only [moveSprite]
  split
  · exact Or.inr rfl
  · exact Or.inl rfl

lemma moveSprite_speedY_cases (dt : ℚ) (s : Sprite) :
    (moveSprite dt s).speedY = s.speedY ∨ (moveSprite dt s).speedY = -s.speedY := by
  simp only [moveSprite]
  split
  · exact Or.inr rfl
  · exact Or.inl rfl

lemma nz_moveMap (dt : ℚ) (l : List Sprite)
    (h : ∀ s ∈ l, s.speedX ≠ 0 ∧ s.speedY ≠ 0) :
    ∀ s ∈ l.map (moveSprite dt), s.speedX ≠ 0 ∧ s.speedY ≠ 0 := by
  intro s hs
  rcases List.mem_map.mp hs with ⟨u, hu, rfl⟩
  obtain ⟨h1, h2⟩ := h u hu
  constructor
  · rcases moveSprite_speedX_cases dt u with e | e <;> rw [e]
    · exact h1
    · exact neg_ne_zero.mpr h1
  · rcases moveSprite_speedY_cases dt u with e | e <;> rw [e]
    · exact h2
    · exact neg_ne_zero.mpr h2

lemma mem_of_getElem?_eq (l : List Sprite) (n : ℕ) (u : Sprite) (h : l[n]? = some u) :
    u ∈ l := by
  rcases List.getElem?_eq_some_iff.mp h with ⟨hlt, rfl⟩
  exact List.getElem_mem hlt

lemma nz_applyPair (i j : ℕ) (l : List Sprite)
    (h : ∀ s ∈ l, s.speedX ≠ 0 ∧ s.speedY ≠ 0) :
    ∀ s ∈ applyPair i j l, s.speedX ≠ 0 ∧ s.speedY ≠ 0 := by
  intro s hs
  rw [applyPair] at hs
  split at hs
  case _ a b ha hb =>
      split at hs
      case isTrue hc =>
          rcases List.mem_or_eq_of_mem_set hs with hs1 | rfl
          · rcases List.mem_or_eq_of_mem_set hs1 with hs2 | rfl
            · exact h s hs2
            · obtain ⟨h1, h2⟩ := h a (mem_of_getElem?_eq l i a ha)
              exact ⟨neg_ne_zero.mpr h1, neg_ne_zero.mpr h2⟩
          · obtain ⟨h1, h2⟩ := h b (mem_of_getElem?_eq l j b hb)
            exact ⟨neg_ne_zero.mpr h1, neg_ne_zero.mpr h2⟩
      case isFalse hc => exact h s hs
  case _ => exact h s hs

lemma nz_innerLoop (i fuel : ℕ) : ∀ (j : ℕ) (l : List Sprite),
    (∀ s ∈ l, s.speedX ≠ 0 ∧ s.speedY ≠ 0) →
    ∀ s ∈ innerLoop i fuel j l, s.speedX ≠ 0 ∧ s.speedY ≠ 0 := by
  induction fuel with
  | zero => intro j l h; exact h
  | succ n ih =>
      intro j l h
      simp only [innerLoop]
      split
      · exact ih (j + 1) (applyPair i j l) (nz_applyPair i j l h)
      · exact h

lemma nz_outerLoop (fuel : ℕ) : ∀ (i : ℕ) (l : List Sprite),
    (∀ s ∈ l, s.speedX ≠ 0 ∧ s.speedY ≠ 0) →
    ∀ s ∈ outerLoop fuel i l, s.speedX ≠ 0 ∧ s.speedY ≠ 0 := by
  induction fuel with
  | zero => intro i l h; exact h
  | succ n ih =>
      intro i l h
      simp only [outerLoop]
      split
      · exact ih (i + 1) _ (nz_innerLoop i (l.length - (i + 1)) (i + 1) l h)
      · exact h

lemma mem_removeExpired (s : Sprite) (l : List Sprite) (h : s ∈ removeExpired l) : s ∈ l := by
  rw [removeExpired_eq_filter] at h
  exact (List.mem_filter.mp h).1

lemma nz_stepSim (dt : ℚ) (l : List Sprite)
    (h : ∀ s ∈ l, s.speedX ≠ 0 ∧ s.speedY ≠ 0) :
    ∀ s ∈ stepSim dt l, s.speedX ≠ 0 ∧ s.speedY ≠ 0 := by
  intro s hs
  rw [stepSim] at hs
  exact nz_outerLoop _ 0 _ (nz_moveMap dt l h) s
    (mem_removeExpired s _ (mem_removeExpired s _ hs))

/-- Claim C8: if every sprite in the collection has both speed components
nonzero, then after any number of simulation steps every surviving sprite
still has both speed components nonzero: integration never changes a speed,
and boundary bounce and collision response only negate speeds. -/
theorem speeds_stay_nonzero :
    ∀ (dts : List ℚ) (l : List Sprite),
      (∀ s ∈ l, s.speedX ≠ 0 ∧ s.speedY ≠ 0) →
      ∀ s ∈ iterateStep dts l, s.speedX ≠ 0 ∧ s.speedY ≠ 0 := by
  intro dts
  induction dts with
  | nil => intro l h; exact h
  | cons dt rest ih =>
      intro l h
      exact ih (stepSim dt l) (nz_stepSim dt l h)

/-- Claim C8 witness: a two-sprite collection with nonzero speeds keeps
nonzero speeds across one step. -/
theorem speeds_stay_nonzero_witness :
    (∀ s ∈ ([⟨⟨1, 1, 50, 50⟩, 2, -3, 5, 0⟩, ⟨⟨200, 200, 50, 50⟩, -1, 4, 7, 1⟩] : List Sprite),
      s.speedX ≠ 0 ∧ s.speedY ≠ 0) ∧
    ∀ s ∈ iterateStep [0]
        [(⟨⟨1, 1, 50, 50⟩, 2, -3, 5, 0⟩ : Sprite), ⟨⟨200, 200, 50, 50⟩, -1, 4, 7, 1⟩],
      s.speedX ≠ 0 ∧ s.speedY ≠ 0 :=
  ⟨by decide, speeds_stay_nonzero [0] _ (by decide)⟩
